import Mathlib

/-!
Shallow embedding of `backend/src/helpers/secrets.ts`: the multi-principal
authorization dispatcher (`validateClientForSecret`, `validateClientForSecrets`)
and the blind-index helpers (`createSecretBlindIndexHelper`,
`getSecretBlindIndexHelper`), together with theorems settling the spec claims.

External collaborators (the Mongo repository, the per-kind validators, the
argon2 library and the OS random source) are modelled as explicit parameters:
the repository as a list of records, each validator as a function returning
`Except SecretsError Unit`, the argon2id raw hash as a function
`String → List Nat → List Nat`, and the bytes returned by
`crypto.randomBytes(16)` on a given call as an explicit argument.
-/

namespace Infisical

/-- A Mongo `Types.ObjectId`, modelled as a wrapped natural number. -/
structure ObjectId where
  oid : Nat
deriving DecidableEq, Repr

/-- A persisted secret record (the fields of `ISecret` this core reads:
its `_id`, owning `workspace`, `environment` tag and name). -/
structure ISecret where
  _id : ObjectId
  workspace : ObjectId
  environment : String
  secretName : String
deriving DecidableEq, Repr

/-- A user document (`IUser`); only its identity matters here. -/
structure IUser where
  userId : ObjectId
deriving DecidableEq, Repr

/-- A service-account document (`IServiceAccount`). -/
structure IServiceAccount where
  serviceAccountId : ObjectId
deriving DecidableEq, Repr

/-- A service-token-data document (`IServiceTokenData`). -/
structure IServiceTokenData where
  serviceTokenDataId : ObjectId
deriving DecidableEq, Repr

/-- The payload `authData.authPayload : IUser | IServiceAccount |
IServiceTokenData`, as a tagged union; a TS `instanceof` test corresponds to a
constructor test here. -/
inductive AuthPayload
  | user (u : IUser)
  | serviceAccount (a : IServiceAccount)
  | serviceTokenData (t : IServiceTokenData)
deriving DecidableEq, Repr

/-- The authenticated client details `authData`: an auth-mode tag string plus
a payload. -/
structure AuthData where
  authMode : String
  authPayload : AuthPayload
deriving DecidableEq, Repr

/-- Modelled from the spec: the auth-mode constants imported from
`../variables` (not under `src/`); the spec describes four distinct recognized
principal kinds, so the four tags are distinct strings. -/
def AUTH_MODE_JWT : String := "jwt"

/-- Modelled from the spec: see `AUTH_MODE_JWT`. -/
def AUTH_MODE_SERVICE_ACCOUNT : String := "serviceAccount"

/-- Modelled from the spec: see `AUTH_MODE_JWT`. -/
def AUTH_MODE_SERVICE_TOKEN : String := "serviceToken"

/-- Modelled from the spec: see `AUTH_MODE_JWT`. -/
def AUTH_MODE_API_KEY : String := "apiKey"

/-- The test `payload instanceof User`. -/
def instanceofUser : AuthPayload → Option IUser
  | .user u => some u
  | _ => none

/-- The test `payload instanceof ServiceAccount`. -/
def instanceofServiceAccount : AuthPayload → Option IServiceAccount
  | .serviceAccount a => some a
  | _ => none

/-- The test `payload instanceof ServiceTokenData`. -/
def instanceofServiceTokenData : AuthPayload → Option IServiceTokenData
  | .serviceTokenData t => some t
  | _ => none

/-- The error taxonomy of `../utils/errors` as used by this file, plus a
constructor for failures raised inside a delegated validator (the dispatcher
treats validators as black boxes and does not catch what they throw). -/
inductive SecretsError
  | secretNotFound (message : String)
  | badRequest (message : String)
  | unauthorizedRequest (message : String)
  | validatorFailure (message : String)
deriving DecidableEq, Repr

/-- The guard `authData.authMode === AUTH_MODE_JWT && authData.authPayload
instanceof User` of the first branch. -/
def jwtUserGuard (authData : AuthData) : Option IUser :=
  if authData.authMode = AUTH_MODE_JWT then instanceofUser authData.authPayload
  else none

/-- The guard `authData.authMode === AUTH_MODE_SERVICE_ACCOUNT &&
authData.authPayload instanceof ServiceAccount`. -/
def serviceAccountGuard (authData : AuthData) : Option IServiceAccount :=
  if authData.authMode = AUTH_MODE_SERVICE_ACCOUNT then
    instanceofServiceAccount authData.authPayload
  else none

/-- The guard `authData.authMode === AUTH_MODE_SERVICE_TOKEN &&
authData.authPayload instanceof ServiceTokenData`. -/
def serviceTokenGuard (authData : AuthData) : Option IServiceTokenData :=
  if authData.authMode = AUTH_MODE_SERVICE_TOKEN then
    instanceofServiceTokenData authData.authPayload
  else none

/-- The guard `authData.authMode === AUTH_MODE_API_KEY && authData.authPayload
instanceof User`. -/
def apiKeyUserGuard (authData : AuthData) : Option IUser :=
  if authData.authMode = AUTH_MODE_API_KEY then instanceofUser authData.authPayload
  else none

/-- The per-kind validator collaborators imported from `../helpers/user`,
`../helpers/serviceAccount` and `../helpers/serviceTokenData` (outside this
core; treated as black boxes that either return normally or fail). Each field
carries exactly the arguments the source passes at the call site. -/
structure Validators where
  validateUserClientForSecret :
    IUser → ISecret → List String → List String → Except SecretsError Unit
  validateUserClientForSecrets :
    IUser → List ISecret → List String → Except SecretsError Unit
  validateServiceAccountClientForWorkspace :
    IServiceAccount → ObjectId → String → List String → Except SecretsError Unit
  validateServiceAccountClientForSecrets :
    IServiceAccount → List ISecret → List String → Except SecretsError Unit
  validateServiceTokenDataClientForWorkspace :
    IServiceTokenData → ObjectId → String → Except SecretsError Unit
  validateServiceTokenDataClientForSecrets :
    IServiceTokenData → List ISecret → List String → Except SecretsError Unit

/-- The lookup `Secret.findById`: the Mongo collection modelled as a list of
records, lookup by `_id`. -/
def findById (db : List ISecret) (secretId : ObjectId) : Option ISecret :=
  db.find? fun s => s._id == secretId

/-- The query `Secret.find` with an id-list filter: every stored record whose
`_id` is among `secretIds`; each stored record is returned at most once. -/
def findByIds (db : List ISecret) (secretIds : List ObjectId) : List ISecret :=
  db.filter fun s => secretIds.contains s._id

/-- The single-secret dispatcher `validateClientForSecret`, taking
`authData`, `secretId`, `acceptedRoles` and `requiredPermissions`:
fetch the secret, fail `SecretNotFoundError` if
absent, then dispatch through the four sequential guarded branches, failing
`UnauthorizedRequestError` when none matches. -/
def validateClientForSecret (v : Validators) (db : List ISecret)
    (authData : AuthData) (secretId : ObjectId)
    (acceptedRoles : List String) (requiredPermissions : List String) :
    Except SecretsError ISecret :=
  match findById db secretId with
  | none => .error (.secretNotFound "Failed to find secret")
  | some secret =>
    match jwtUserGuard authData with
    | some u =>
      (v.validateUserClientForSecret u secret acceptedRoles
        requiredPermissions).map fun _ => secret
    | none =>
    match serviceAccountGuard authData with
    | some a =>
      (v.validateServiceAccountClientForWorkspace a secret.workspace
        secret.environment requiredPermissions).map fun _ => secret
    | none =>
    match serviceTokenGuard authData with
    | some t =>
      (v.validateServiceTokenDataClientForWorkspace t secret.workspace
        secret.environment).map fun _ => secret
    | none =>
    match apiKeyUserGuard authData with
    | some u =>
      (v.validateUserClientForSecret u secret acceptedRoles
        requiredPermissions).map fun _ => secret
    | none => .error (.unauthorizedRequest "Failed client authorization for secret")

/-- The batch dispatcher `validateClientForSecrets`, taking `authData`,
`secretIds` and `requiredPermissions`:
fetch all matching secrets, fail `BadRequestError` on a count mismatch, then
dispatch through the four sequential guarded branches, failing
`UnauthorizedRequestError` when none matches. -/
def validateClientForSecrets (v : Validators) (db : List ISecret)
    (authData : AuthData) (secretIds : List ObjectId)
    (requiredPermissions : List String) :
    Except SecretsError (List ISecret) :=
  let secrets := findByIds db secretIds
  if secrets.length ≠ secretIds.length then
    .error (.badRequest "Failed to validate non-existent secrets")
  else
    match jwtUserGuard authData with
    | some u =>
      (v.validateUserClientForSecrets u secrets requiredPermissions).map
        fun _ => secrets
    | none =>
    match serviceAccountGuard authData with
    | some a =>
      (v.validateServiceAccountClientForSecrets a secrets
        requiredPermissions).map fun _ => secrets
    | none =>
    match serviceTokenGuard authData with
    | some t =>
      (v.validateServiceTokenDataClientForSecrets t secrets
        requiredPermissions).map fun _ => secrets
    | none =>
    match apiKeyUserGuard authData with
    | some u =>
      (v.validateUserClientForSecrets u secrets requiredPermissions).map
        fun _ => secrets
    | none =>
      .error (.unauthorizedRequest "Failed client authorization for secrets resource")

/-- The base64 alphabet used by the Node buffer base64 rendering. -/
def base64Char (n : Nat) : Char :=
  "ABCDEFGHIJKLMNOPQRSTUVWXYZabcdefghijklmnopqrstuvwxyz0123456789+/".toList.getD n '?'

/-- Standard base64 with padding over a byte list, three bytes per group, as
produced by the Node buffer base64 rendering. -/
def base64Groups : List Nat → List Char
  | [] => []
  | [b1] =>
    [base64Char (b1 / 4), base64Char (b1 % 4 * 16), '=', '=']
  | [b1, b2] =>
    [base64Char (b1 / 4), base64Char (b1 % 4 * 16 + b2 / 16),
     base64Char (b2 % 16 * 4), '=']
  | b1 :: b2 :: b3 :: rest =>
    base64Char (b1 / 4) :: base64Char (b1 % 4 * 16 + b2 / 16) ::
    base64Char (b2 % 16 * 4 + b3 / 64) :: base64Char (b3 % 64) ::
    base64Groups rest

/-- Encoding of a byte buffer as a base64 string, the storage encoding the source applies to the raw hash. -/
def base64Encode (bytes : List Nat) : String :=
  ⟨base64Groups bytes⟩

/-- The external cryptographic collaborator: the raw argon2id hash invoked
by `argon2.hash` with the type argon2id and raw output options, as a function
of the password and the salt bytes; the fixed cost options of the source
(saltLength 16, memoryCost 65536, hashLength 32, parallelism 1) select which
concrete function this is,
and the library contract for `hashLength: 32` is the hypothesis that its
output has 32 bytes. -/
structure CryptoEnv where
  argon2idRaw : String → List Nat → List Nat

/-- The creation helper `createSecretBlindIndexHelper`, taking `secretName`
and `workspaceId`. The call
`crypto.randomBytes(16)` is modelled by the explicit argument
`randomBytesDraw`: the bytes the OS random source returns on this particular
call. Faithful to the source: the persisted `SecretBlindIndexData` lookup is
commented out there, so the salt fed to argon2id is the fresh draw and
`workspaceId` is never read. -/
def createSecretBlindIndexHelper (env : CryptoEnv) (randomBytesDraw : List Nat)
    (secretName : String) (workspaceId : ObjectId) : String :=
  let randomBytes := randomBytesDraw
  let secretBlindIndex :=
    base64Encode (env.argon2idRaw secretName randomBytes)
  secretBlindIndex

/-- A persisted `SecretBlindIndexData` record: the owning workspace and its
encrypted salt material (the ciphertext fields are opaque to this core). -/
structure SecretBlindIndexData where
  workspace : ObjectId
  encryptedSaltCiphertext : String
deriving DecidableEq, Repr

/-- The lookup helper `getSecretBlindIndexHelper`, taking `secretName` and
`workspaceId`: the source loads
the `SecretBlindIndexData` record of the workspace, has an empty branch for the
not-enabled case, and then ends without computing or returning anything, so
every path yields `undefined` (`none`). -/
def getSecretBlindIndexHelper (store : List SecretBlindIndexData)
    (secretName : String) (workspaceId : ObjectId) : Option String :=
  match store.find? fun d => d.workspace == workspaceId with
  | none => none
  | some _ => none

/-! ## Guard inversion lemmas -/

/-- A matched first branch pins down the auth mode and the payload. -/
theorem jwtUserGuard_inv {a : AuthData} {u : IUser}
    (h : jwtUserGuard a = some u) :
    a.authMode = AUTH_MODE_JWT ∧ a.authPayload = .user u := by
  unfold jwtUserGuard at h
  split at h
  · rename_i hm
    refine ⟨hm, ?_⟩
    cases hp : a.authPayload <;> rw [hp] at h <;>
      simp [instanceofUser] at h
    rw [h]
  · simp at h

/-- A matched service-account branch pins down the auth mode and the payload. -/
theorem serviceAccountGuard_inv {a : AuthData} {sa : IServiceAccount}
    (h : serviceAccountGuard a = some sa) :
    a.authMode = AUTH_MODE_SERVICE_ACCOUNT ∧ a.authPayload = .serviceAccount sa := by
  unfold serviceAccountGuard at h
  split at h
  · rename_i hm
    refine ⟨hm, ?_⟩
    cases hp : a.authPayload <;> rw [hp] at h <;>
      simp [instanceofServiceAccount] at h
    rw [h]
  · simp at h

/-- A matched service-token branch pins down the auth mode and the payload. -/
theorem serviceTokenGuard_inv {a : AuthData} {t : IServiceTokenData}
    (h : serviceTokenGuard a = some t) :
    a.authMode = AUTH_MODE_SERVICE_TOKEN ∧ a.authPayload = .serviceTokenData t := by
  unfold serviceTokenGuard at h
  split at h
  · rename_i hm
    refine ⟨hm, ?_⟩
    cases hp : a.authPayload <;> rw [hp] at h <;>
      simp [instanceofServiceTokenData] at h
    rw [h]
  · simp at h

/-- A matched api-key branch pins down the auth mode and the payload. -/
theorem apiKeyUserGuard_inv {a : AuthData} {u : IUser}
    (h : apiKeyUserGuard a = some u) :
    a.authMode = AUTH_MODE_API_KEY ∧ a.authPayload = .user u := by
  unfold apiKeyUserGuard at h
  split at h
  · rename_i hm
    refine ⟨hm, ?_⟩
    cases hp : a.authPayload <;> rw [hp] at h <;>
      simp [instanceofUser] at h
    rw [h]
  · simp at h

/-- The four guarded branches are mutually exclusive: a matched
service-account branch means the first branch did not match. -/
theorem jwtUserGuard_none_of_sa {a : AuthData} {sa : IServiceAccount}
    (h : serviceAccountGuard a = some sa) : jwtUserGuard a = none := by
  obtain ⟨hm, hp⟩ := serviceAccountGuard_inv h
  simp [jwtUserGuard, hp, instanceofUser]

/-- A matched service-token branch means the first branch did not match. -/
theorem jwtUserGuard_none_of_st {a : AuthData} {t : IServiceTokenData}
    (h : serviceTokenGuard a = some t) : jwtUserGuard a = none := by
  obtain ⟨hm, hp⟩ := serviceTokenGuard_inv h
  simp [jwtUserGuard, hp, instanceofUser]

/-- A matched service-token branch means the service-account branch did not
match. -/
theorem serviceAccountGuard_none_of_st {a : AuthData} {t : IServiceTokenData}
    (h : serviceTokenGuard a = some t) : serviceAccountGuard a = none := by
  obtain ⟨hm, hp⟩ := serviceTokenGuard_inv h
  simp [serviceAccountGuard, hp, instanceofServiceAccount]

/-- A matched api-key branch means the first branch did not match (the two
mode tags are distinct strings). -/
theorem jwtUserGuard_none_of_api {a : AuthData} {u : IUser}
    (h : apiKeyUserGuard a = some u) : jwtUserGuard a = none := by
  obtain ⟨hm, hp⟩ := apiKeyUserGuard_inv h
  unfold jwtUserGuard
  rw [hm]
  simp [AUTH_MODE_API_KEY, AUTH_MODE_JWT]

/-- A matched api-key branch means the service-account branch did not match. -/
theorem serviceAccountGuard_none_of_api {a : AuthData} {u : IUser}
    (h : apiKeyUserGuard a = some u) : serviceAccountGuard a = none := by
  obtain ⟨hm, hp⟩ := apiKeyUserGuard_inv h
  simp [serviceAccountGuard, hp, instanceofServiceAccount]

/-- A matched api-key branch means the service-token branch did not match. -/
theorem serviceTokenGuard_none_of_api {a : AuthData} {u : IUser}
    (h : apiKeyUserGuard a = some u) : serviceTokenGuard a = none := by
  obtain ⟨hm, hp⟩ := apiKeyUserGuard_inv h
  simp [serviceTokenGuard, hp, instanceofServiceTokenData]

/-! ## Shared helper lemmas about the dispatchers -/

/-- Shared helper: a batch whose fetch count disagrees with the request count
fails with the `BadRequestError`, whatever the validators are. -/
theorem batch_count_mismatch {v : Validators} {db : List ISecret}
    {authData : AuthData} {secretIds : List ObjectId}
    {requiredPermissions : List String}
    (h : (findByIds db secretIds).length ≠ secretIds.length) :
    validateClientForSecrets v db authData secretIds requiredPermissions =
      .error (.badRequest "Failed to validate non-existent secrets") := by
  unfold validateClientForSecrets
  simp [h]

/-! ## Concrete fixtures used by witnesses and counterexamples -/

/-- A workspace id used in concrete scenarios. -/
def w1 : ObjectId := ⟨10⟩

/-- A concrete persisted secret. -/
def s1 : ISecret := ⟨⟨1⟩, w1, "prod", "DB_PASSWORD"⟩

/-- A one-secret repository. -/
def db1 : List ISecret := [s1]

/-- A concrete user payload. -/
def u1 : IUser := ⟨⟨100⟩⟩

/-- A concrete service-token payload. -/
def t1 : IServiceTokenData := ⟨⟨300⟩⟩

/-- Validators that authorize everything; used to instantiate universally
quantified validator bundles in witnesses. -/
def okValidators : Validators :=
  ⟨fun _ _ _ _ => .ok (), fun _ _ _ => .ok (),
   fun _ _ _ _ => .ok (), fun _ _ _ => .ok (),
   fun _ _ _ => .ok (), fun _ _ _ => .ok ()⟩

/-! ## Claim theorems -/

/-- C4: for every validator bundle, repository, context and identifier that
does not resolve to a secret record, `validateClientForSecret` fails with the
`NotFound` error; since this holds for every validator bundle and every
context, the failure is decided before any principal-kind dispatch or
validator call. -/
theorem validateForSecret_missing_notFound (v : Validators) (db : List ISecret)
    (authData : AuthData) (secretId : ObjectId)
    (acceptedRoles requiredPermissions : List String)
    (habsent : findById db secretId = none) :
    validateClientForSecret v db authData secretId acceptedRoles
      requiredPermissions = .error (.secretNotFound "Failed to find secret") := by
  unfold validateClientForSecret
  rw [habsent]

/-- Witness for C4: the empty repository resolves no identifier, and the call
fails with `NotFound`. -/
theorem validateForSecret_missing_notFound_witness :
    findById [] ⟨1⟩ = none ∧
    validateClientForSecret okValidators [] ⟨AUTH_MODE_JWT, .user u1⟩ ⟨1⟩ [] []
      = .error (.secretNotFound "Failed to find secret") :=
  ⟨rfl, validateForSecret_missing_notFound okValidators []
    ⟨AUTH_MODE_JWT, .user u1⟩ ⟨1⟩ [] [] rfl⟩

/-- C3: for every validator bundle, repository, context and id list, if the
number of resolved records differs from the number of requested ids,
`validateClientForSecrets` fails with the `BadRequest` error; since this holds
for every validator bundle and every context, the failure is decided before
any principal-kind dispatch or validator/authorization call. -/
theorem validateForSecrets_count_mismatch_badRequest (v : Validators)
    (db : List ISecret) (authData : AuthData) (secretIds : List ObjectId)
    (requiredPermissions : List String)
    (hmismatch : (findByIds db secretIds).length ≠ secretIds.length) :
    validateClientForSecrets v db authData secretIds requiredPermissions =
      .error (.badRequest "Failed to validate non-existent secrets") :=
  batch_count_mismatch hmismatch

/-- Witness for C3: requesting one id against the empty repository resolves
zero records, and the call fails with `BadRequest`. -/
theorem validateForSecrets_count_mismatch_badRequest_witness :
    (findByIds [] [⟨1⟩]).length ≠ ([⟨1⟩] : List ObjectId).length ∧
    validateClientForSecrets okValidators [] ⟨AUTH_MODE_JWT, .user u1⟩ [⟨1⟩] []
      = .error (.badRequest "Failed to validate non-existent secrets") :=
  ⟨by decide, validateForSecrets_count_mismatch_badRequest okValidators []
    ⟨AUTH_MODE_JWT, .user u1⟩ [⟨1⟩] [] (by decide)⟩

/-- C10: a context tagged `AUTH_MODE_JWT` and a context tagged
`AUTH_MODE_API_KEY`, both carrying the same `User` payload, produce identical
results on both `validateClientForSecret` and `validateClientForSecrets`, for
every validator bundle, repository, target, accepted-role list and
required-permission list: both kinds dispatch to the same user validator with
identical arguments. -/
theorem jwt_apiKey_user_equivalent (v : Validators) (db : List ISecret)
    (u : IUser) (secretId : ObjectId) (secretIds : List ObjectId)
    (acceptedRoles requiredPermissions : List String) :
    validateClientForSecret v db ⟨AUTH_MODE_JWT, .user u⟩ secretId
        acceptedRoles requiredPermissions =
      validateClientForSecret v db ⟨AUTH_MODE_API_KEY, .user u⟩ secretId
        acceptedRoles requiredPermissions ∧
    validateClientForSecrets v db ⟨AUTH_MODE_JWT, .user u⟩ secretIds
        requiredPermissions =
      validateClientForSecrets v db ⟨AUTH_MODE_API_KEY, .user u⟩ secretIds
        requiredPermissions := by
  constructor
  · unfold validateClientForSecret
    cases hfind : findById db secretId <;> rfl
  · unfold validateClientForSecrets
    by_cases h : (findByIds db secretIds).length = secretIds.length
    · simp only [h, ne_eq, not_true_eq_false, if_false]
      rfl
    · simp only [ne_eq, h, not_false_eq_true, if_true]

/-- The four recognized principal-kind tags. -/
def recognizedMode (m : String) : Prop :=
  m = AUTH_MODE_JWT ∨ m = AUTH_MODE_SERVICE_ACCOUNT ∨
    m = AUTH_MODE_SERVICE_TOKEN ∨ m = AUTH_MODE_API_KEY

instance (m : String) : Decidable (recognizedMode m) :=
  decidable_of_iff (m = AUTH_MODE_JWT ∨ m = AUTH_MODE_SERVICE_ACCOUNT ∨
    m = AUTH_MODE_SERVICE_TOKEN ∨ m = AUTH_MODE_API_KEY) Iff.rfl

/-- The kind tag agrees with the payload type: a `User` payload may be tagged
JWT or api-key, a `ServiceAccount` payload must be tagged service-account,
and a `ServiceTokenData` payload must be tagged service-token. -/
def modeMatchesPayload (a : AuthData) : Prop :=
  match a.authPayload with
  | .user _ => a.authMode = AUTH_MODE_JWT ∨ a.authMode = AUTH_MODE_API_KEY
  | .serviceAccount _ => a.authMode = AUTH_MODE_SERVICE_ACCOUNT
  | .serviceTokenData _ => a.authMode = AUTH_MODE_SERVICE_TOKEN

/-- Shared helper: an unrecognized kind tag, or a tag disagreeing with the
payload type, makes all four guarded branches miss. -/
theorem guards_none_of_invalid (a : AuthData)
    (h : ¬ recognizedMode a.authMode ∨ ¬ modeMatchesPayload a) :
    jwtUserGuard a = none ∧ serviceAccountGuard a = none ∧
      serviceTokenGuard a = none ∧ apiKeyUserGuard a = none := by
  rcases a with ⟨mode, payload⟩
  rcases h with h | h
  · unfold recognizedMode at h
    push_neg at h
    obtain ⟨h1, h2, h3, h4⟩ := h
    simp [jwtUserGuard, serviceAccountGuard, serviceTokenGuard,
      apiKeyUserGuard, h1, h2, h3, h4]
  · cases payload with
    | user u =>
      simp only [modeMatchesPayload] at h
      push_neg at h
      obtain ⟨h1, h2⟩ := h
      simp [jwtUserGuard, serviceAccountGuard, serviceTokenGuard,
        apiKeyUserGuard, instanceofUser, instanceofServiceAccount,
        instanceofServiceTokenData, h1, h2]
    | serviceAccount sa =>
      simp only [modeMatchesPayload] at h
      simp [jwtUserGuard, serviceAccountGuard, serviceTokenGuard,
        apiKeyUserGuard, instanceofUser, instanceofServiceAccount,
        instanceofServiceTokenData, h]
    | serviceTokenData t =>
      simp only [modeMatchesPayload] at h
      simp [jwtUserGuard, serviceAccountGuard, serviceTokenGuard,
        apiKeyUserGuard, instanceofUser, instanceofServiceAccount,
        instanceofServiceTokenData, h]

/-- C5: for every validator bundle, a context whose kind tag is not one of
the four recognized tags, or whose payload type disagrees with its kind tag,
makes `validateClientForSecret` (on an existing secret) and
`validateClientForSecrets` (on a fully resolving batch) fail with the
`Unauthorized` error; since this holds for every validator bundle, no
validator is consulted in reaching the failure. -/
theorem dispatch_unrecognized_unauthorized (v : Validators) (db : List ISecret)
    (a : AuthData) (secretId : ObjectId) (secretIds : List ObjectId)
    (acceptedRoles requiredPermissions : List String) (secret : ISecret)
    (hbad : ¬ recognizedMode a.authMode ∨ ¬ modeMatchesPayload a)
    (hfound : findById db secretId = some secret)
    (hcount : (findByIds db secretIds).length = secretIds.length) :
    validateClientForSecret v db a secretId acceptedRoles requiredPermissions =
      .error (.unauthorizedRequest "Failed client authorization for secret") ∧
    validateClientForSecrets v db a secretIds requiredPermissions =
      .error
        (.unauthorizedRequest "Failed client authorization for secrets resource") := by
  obtain ⟨hj, hsa, hst, hapi⟩ := guards_none_of_invalid a hbad
  constructor
  · unfold validateClientForSecret
    simp [hfound, hj, hsa, hst, hapi]
  · unfold validateClientForSecrets
    simp [hcount, hj, hsa, hst, hapi]

/-- Witness for C5: the string tag of the context is none of the four
recognized tags; the secret resolves and the batch fully resolves, yet both
operations fail with `Unauthorized`. -/
theorem dispatch_unrecognized_unauthorized_witness :
    (¬ recognizedMode "badmode" ∨
      ¬ modeMatchesPayload ⟨"badmode", .serviceTokenData t1⟩) ∧
    findById db1 ⟨1⟩ = some s1 ∧
    (findByIds db1 [⟨1⟩]).length = ([⟨1⟩] : List ObjectId).length ∧
    validateClientForSecret okValidators db1 ⟨"badmode", .serviceTokenData t1⟩
      ⟨1⟩ [] [] =
      .error (.unauthorizedRequest "Failed client authorization for secret") ∧
    validateClientForSecrets okValidators db1 ⟨"badmode", .serviceTokenData t1⟩
      [⟨1⟩] [] =
      .error
        (.unauthorizedRequest "Failed client authorization for secrets resource") :=
  ⟨Or.inl (by decide), rfl, by decide,
    (dispatch_unrecognized_unauthorized okValidators db1
      ⟨"badmode", .serviceTokenData t1⟩ ⟨1⟩ [⟨1⟩] [] [] s1
      (Or.inl (by decide)) rfl (by decide)).1,
    (dispatch_unrecognized_unauthorized okValidators db1
      ⟨"badmode", .serviceTokenData t1⟩ ⟨1⟩ [⟨1⟩] [] [] s1
      (Or.inl (by decide)) rfl (by decide)).2⟩

/-- C8: whenever the secret resolves and a recognized branch matches, the
result of the dispatcher is exactly the result of the delegated validator mapped to the
fetched secret: if the validator returns normally the call returns the fetched
record unmodified (`Except.map` sends `ok () ↦ ok secret`), and if the
validator fails with any error `e` the call fails with that same `e`
(`Except.map` sends `error e ↦ error e`), i.e. failures propagate unchanged,
never caught or downgraded. Stated for each of the four recognized branches. -/
theorem dispatcher_returns_fetched_and_propagates (v : Validators)
    (db : List ISecret) (a : AuthData) (secretId : ObjectId)
    (acceptedRoles requiredPermissions : List String) (secret : ISecret)
    (hfound : findById db secretId = some secret) :
    (∀ u, jwtUserGuard a = some u →
      validateClientForSecret v db a secretId acceptedRoles requiredPermissions =
        (v.validateUserClientForSecret u secret acceptedRoles
          requiredPermissions).map fun _ => secret) ∧
    (∀ sa, serviceAccountGuard a = some sa →
      validateClientForSecret v db a secretId acceptedRoles requiredPermissions =
        (v.validateServiceAccountClientForWorkspace sa secret.workspace
          secret.environment requiredPermissions).map fun _ => secret) ∧
    (∀ t, serviceTokenGuard a = some t →
      validateClientForSecret v db a secretId acceptedRoles requiredPermissions =
        (v.validateServiceTokenDataClientForWorkspace t secret.workspace
          secret.environment).map fun _ => secret) ∧
    (∀ u, apiKeyUserGuard a = some u →
      validateClientForSecret v db a secretId acceptedRoles requiredPermissions =
        (v.validateUserClientForSecret u secret acceptedRoles
          requiredPermissions).map fun _ => secret) := by
  refine ⟨?_, ?_, ?_, ?_⟩
  · intro u hu
    unfold validateClientForSecret
    simp [hfound, hu]
  · intro sa hsa
    unfold validateClientForSecret
    simp [hfound, jwtUserGuard_none_of_sa hsa, hsa]
  · intro t ht
    unfold validateClientForSecret
    simp [hfound, jwtUserGuard_none_of_st ht, serviceAccountGuard_none_of_st ht, ht]
  · intro u hu
    unfold validateClientForSecret
    simp [hfound, jwtUserGuard_none_of_api hu, serviceAccountGuard_none_of_api hu,
      serviceTokenGuard_none_of_api hu, hu]

/-- Validators whose user validator denies; used to witness that a validator
failure propagates unchanged through the dispatcher. -/
def denyValidators : Validators :=
  ⟨fun _ _ _ _ => .error (.validatorFailure "user validator denied"),
   fun _ _ _ => .ok (),
   fun _ _ _ _ => .ok (), fun _ _ _ => .ok (),
   fun _ _ _ => .ok (), fun _ _ _ => .ok ()⟩

/-- Witness for C8: with an authorizing validator the call returns exactly the
fetched secret; with a denying validator the error of the validator surfaces
unchanged. -/
theorem dispatcher_returns_fetched_and_propagates_witness :
    findById db1 ⟨1⟩ = some s1 ∧
    validateClientForSecret okValidators db1 ⟨AUTH_MODE_JWT, .user u1⟩ ⟨1⟩ [] []
      = .ok s1 ∧
    validateClientForSecret denyValidators db1 ⟨AUTH_MODE_JWT, .user u1⟩ ⟨1⟩ [] []
      = .error (.validatorFailure "user validator denied") :=
  ⟨rfl,
   ((dispatcher_returns_fetched_and_propagates okValidators db1
      ⟨AUTH_MODE_JWT, .user u1⟩ ⟨1⟩ [] [] s1 rfl).1 u1 rfl).trans rfl,
   ((dispatcher_returns_fetched_and_propagates denyValidators db1
      ⟨AUTH_MODE_JWT, .user u1⟩ ⟨1⟩ [] [] s1 rfl).1 u1 rfl).trans rfl⟩

/-- Shared helper: if a projection is injective over the stored records
(each distinct record is returned once) and the requested key list has a
duplicate, the filter resolving the keys returns strictly fewer records than
keys were requested. -/
theorem filter_contains_length_lt {α β : Type} [DecidableEq β] (db : List α)
    (f : α → β) (ids : List β) (hdb : (db.map f).Nodup)
    (hdup : ¬ ids.Nodup) :
    (db.filter fun s => ids.contains (f s)).length < ids.length := by
  set l := db.filter fun s => ids.contains (f s) with hl
  have hsub : List.Sublist l db := List.filter_sublist db
  have hmapnd : (l.map f).Nodup := hdb.sublist (hsub.map f)
  have hmem : ∀ x ∈ l.map f, x ∈ ids := by
    intro x hx
    obtain ⟨s, hs, rfl⟩ := List.mem_map.1 hx
    have hsf := List.mem_filter.1 (hl ▸ hs)
    have h2 := hsf.2
    simp only [List.contains, List.elem_iff] at h2
    exact h2
  have hcard1 : (l.map f).toFinset.card = l.length := by
    rw [List.toFinset_card_of_nodup hmapnd, List.length_map]
  have hsubset : (l.map f).toFinset ⊆ ids.toFinset := by
    intro x hx
    exact List.mem_toFinset.2 (hmem x (List.mem_toFinset.1 hx))
  have hcard2 : (l.map f).toFinset.card ≤ ids.toFinset.card :=
    Finset.card_le_card hsubset
  have hded : ids.toFinset.card = ids.dedup.length := List.card_toFinset ids
  have hlt : ids.dedup.length < ids.length := by
    rcases Nat.lt_or_ge ids.dedup.length ids.length with h | h
    · exact h
    · exfalso
      have hle : ids.dedup.length ≤ ids.length :=
        (List.dedup_sublist ids).length_le
      have heq : ids.dedup = ids :=
        (List.dedup_sublist ids).eq_of_length (Nat.le_antisymm hle h)
      exact hdup (heq ▸ List.nodup_dedup ids)
  omega

/-- C9: when the repository returns each distinct record once (`_id` is a
unique key) and the requested id list contains a duplicate,
`validateClientForSecrets` fails with `BadRequest` even though every listed
secret exists, because the resolved count is compared against the longer
request list. -/
theorem duplicate_ids_badRequest (v : Validators) (db : List ISecret)
    (authData : AuthData) (secretIds : List ObjectId)
    (requiredPermissions : List String)
    (hdb : (db.map ISecret._id).Nodup)
    (hdup : ¬ secretIds.Nodup)
    (hall : ∀ i ∈ secretIds, i ∈ db.map ISecret._id) :
    validateClientForSecrets v db authData secretIds requiredPermissions =
      .error (.badRequest "Failed to validate non-existent secrets") := by
  apply batch_count_mismatch
  have h : (findByIds db secretIds).length < secretIds.length :=
    filter_contains_length_lt db ISecret._id secretIds hdb hdup
  omega

/-- Witness for C9: the single secret `s1` exists, the request lists its id
twice, and the batch call fails with `BadRequest`. -/
theorem duplicate_ids_badRequest_witness :
    (db1.map ISecret._id).Nodup ∧
    ¬ ([⟨1⟩, ⟨1⟩] : List ObjectId).Nodup ∧
    (∀ i ∈ ([⟨1⟩, ⟨1⟩] : List ObjectId), i ∈ db1.map ISecret._id) ∧
    validateClientForSecrets okValidators db1 ⟨AUTH_MODE_JWT, .user u1⟩
      [⟨1⟩, ⟨1⟩] [] = .error (.badRequest "Failed to validate non-existent secrets") :=
  ⟨by decide, by decide, by decide,
    duplicate_ids_badRequest okValidators db1 ⟨AUTH_MODE_JWT, .user u1⟩
      [⟨1⟩, ⟨1⟩] [] (by decide) (by decide) (by decide)⟩

/-- Validators whose batch service-token validator denies exactly when the
permission list it receives is non-empty; used to exhibit that the batch
dispatch passes the required-permission list through. -/
def permSensitiveValidators : Validators :=
  ⟨fun _ _ _ _ => .ok (), fun _ _ _ => .ok (),
   fun _ _ _ _ => .ok (), fun _ _ _ => .ok (),
   fun _ _ _ => .ok (),
   fun _ _ perms =>
     if perms.isEmpty then .ok ()
     else .error (.unauthorizedRequest "service token denied by permissions")⟩

/-- Counterexample to C6 as stated: on the batch path the outcome of a
ServiceToken-kind call changes with the `requiredPermissions` argument
(`[]` versus `["read"]`, same token, same secrets), so the batch dispatch does
pass a required-permission list to the service-token batch validator, contrary
to the claim that no permission list is passed on the batch path. -/
theorem serviceToken_batch_receives_permissions :
    validateClientForSecrets permSensitiveValidators db1
      ⟨AUTH_MODE_SERVICE_TOKEN, .serviceTokenData t1⟩ [⟨1⟩] [] = .ok [s1] ∧
    validateClientForSecrets permSensitiveValidators db1
      ⟨AUTH_MODE_SERVICE_TOKEN, .serviceTokenData t1⟩ [⟨1⟩] ["read"] =
      .error (.unauthorizedRequest "service token denied by permissions") :=
  ⟨rfl, rfl⟩

/-- C6 (amended): in the single-secret path the ServiceToken-kind dispatch
invokes the service-token validator with only `(token, secret.workspace,
secret.environment)` — neither the accepted-role list nor the
required-permission list appears in the delegated call; in the batch path the
dispatch invokes the batch service-token validator with `(token, secrets,
requiredPermissions)`, i.e. the whole batch together with the
required-permission list. -/
theorem serviceToken_dispatch_scopes (v : Validators) (db : List ISecret)
    (t : IServiceTokenData) (secretId : ObjectId) (secretIds : List ObjectId)
    (acceptedRoles requiredPermissions : List String) (secret : ISecret)
    (hfound : findById db secretId = some secret)
    (hcount : (findByIds db secretIds).length = secretIds.length) :
    validateClientForSecret v db ⟨AUTH_MODE_SERVICE_TOKEN, .serviceTokenData t⟩
        secretId acceptedRoles requiredPermissions =
      (v.validateServiceTokenDataClientForWorkspace t secret.workspace
        secret.environment).map (fun _ => secret) ∧
    validateClientForSecrets v db ⟨AUTH_MODE_SERVICE_TOKEN, .serviceTokenData t⟩
        secretIds requiredPermissions =
      (v.validateServiceTokenDataClientForSecrets t (findByIds db secretIds)
        requiredPermissions).map (fun _ => findByIds db secretIds) := by
  constructor
  · unfold validateClientForSecret
    rw [hfound]
    rfl
  · unfold validateClientForSecrets
    simp [hcount, jwtUserGuard, serviceAccountGuard, serviceTokenGuard,
      apiKeyUserGuard, instanceofUser, instanceofServiceAccount,
      instanceofServiceTokenData, AUTH_MODE_JWT, AUTH_MODE_SERVICE_ACCOUNT,
      AUTH_MODE_SERVICE_TOKEN, AUTH_MODE_API_KEY]

/-- Witness for C6 (amended): on a one-secret repository with a resolving id,
instantiating the theorem yields the service-token dispatch equations. -/
theorem serviceToken_dispatch_scopes_witness :
    findById db1 ⟨1⟩ = some s1 ∧
    (findByIds db1 [⟨1⟩]).length = ([⟨1⟩] : List ObjectId).length ∧
    validateClientForSecret okValidators db1
      ⟨AUTH_MODE_SERVICE_TOKEN, .serviceTokenData t1⟩ ⟨1⟩ [] [] =
      (okValidators.validateServiceTokenDataClientForWorkspace t1 s1.workspace
        s1.environment).map (fun _ => s1) :=
  ⟨rfl, by decide,
    (serviceToken_dispatch_scopes okValidators db1 t1 ⟨1⟩ [⟨1⟩] [] [] s1
      rfl (by decide)).1⟩

/-! ## Blind-index claims -/

/-- C2: `getSecretBlindIndexHelper` never returns a blind-index value — for
every salt store, secret name and workspace the result is `none`
(`undefined`), so it cannot perform the same derivation as
`createSecretBlindIndexHelper` nor produce a value matchable by equality.
This contradicts the stated purpose of the function (its doc comment says it
returns the blind index). -/
theorem getBlindIndex_returns_no_value (store : List SecretBlindIndexData)
    (secretName : String) (workspaceId : ObjectId) :
    getSecretBlindIndexHelper store secretName workspaceId = none := by
  unfold getSecretBlindIndexHelper
  cases store.find? fun d => d.workspace == workspaceId <;> rfl

/-- A stand-in instantiation of argon2id that depends on its salt argument
(as the real argon2id does); doubling the 16 salt bytes gives a 32-byte
output, matching the configured `hashLength`. -/
def saltSensitiveHash : CryptoEnv := ⟨fun _ salt => salt ++ salt⟩

/-- C1: `createSecretBlindIndexHelper` is not a function of
`(secretName, workspaceId)`: (a) its result never depends on `workspaceId`
(no persisted per-workspace salt is read — the lookup is commented out in the
source), and (b) with a salt-dependent hash, two calls with the same
`("DB_PASSWORD", w1)` pair but different `crypto.randomBytes(16)` draws
return different `BlindIndexValue`s, contradicting the determinism that the
TODO comment in the source says is intended. -/
theorem createBlindIndex_fresh_salt_nondeterministic :
    (∀ (env : CryptoEnv) (draw : List Nat) (secretName : String)
      (w w' : ObjectId),
        createSecretBlindIndexHelper env draw secretName w =
          createSecretBlindIndexHelper env draw secretName w') ∧
    createSecretBlindIndexHelper saltSensitiveHash (List.replicate 16 0)
        "DB_PASSWORD" w1 ≠
      createSecretBlindIndexHelper saltSensitiveHash (List.replicate 16 1)
        "DB_PASSWORD" w1 := by
  constructor
  · intro env draw secretName w w'
    rfl
  · decide

/-- Shared helper: base64 over byte groups emits four characters per started
three-byte group. -/
theorem base64Groups_length (bs : List Nat) :
    (base64Groups bs).length = 4 * ((bs.length + 2) / 3) := by
  induction bs using base64Groups.induct with
  | case1 => simp [base64Groups]
  | case2 b1 => simp [base64Groups]
  | case3 b1 b2 => simp [base64Groups]
  | case4 b1 b2 b3 rest ih =>
    simp only [base64Groups, List.length_cons, ih]
    omega

/-- C7: whenever the argon2id collaborator honours its `hashLength: 32`
contract and returns a 32-byte digest, the `BlindIndexValue` produced by
`createSecretBlindIndexHelper` is its base64 storage encoding and has the
fixed length 44 — the same for every secret name, of any length, and every
workspace. -/
theorem blindIndex_encoded_length_fixed (env : CryptoEnv)
    (randomBytesDraw : List Nat) (secretName : String) (workspaceId : ObjectId)
    (hlen : (env.argon2idRaw secretName randomBytesDraw).length = 32) :
    (createSecretBlindIndexHelper env randomBytesDraw secretName
      workspaceId).length = 44 := by
  unfold createSecretBlindIndexHelper base64Encode
  show (base64Groups (env.argon2idRaw secretName randomBytesDraw)).length = 44
  rw [base64Groups_length, hlen]

/-- A hash model whose output is always the 32-byte list `[0, …, 31]`; it
honours the `hashLength: 32` contract. -/
def rangeHash : CryptoEnv := ⟨fun _ _ => List.range 32⟩

/-- Witness for C7: a concrete 32-byte digest yields a 44-character encoded
value. -/
theorem blindIndex_encoded_length_fixed_witness :
    (rangeHash.argon2idRaw "DB_PASSWORD" []).length = 32 ∧
    (createSecretBlindIndexHelper rangeHash [] "DB_PASSWORD" w1).length = 44 :=
  ⟨rfl, blindIndex_encoded_length_fixed rangeHash [] "DB_PASSWORD" w1 rfl⟩

end Infisical
